import Mathlib

/-
Verification development for the hashnode-wrapped application
(src/hashnode_wrapped_2/hashnode_wrapped_2.py).

The testable core is `State.process_stats` (stats aggregation over a raw
user record) and the response-classification logic of `State.handle_submit`.
Both are embedded below as executable Lean functions over a typed model of
the JSON record shapes the code reads.  Machine integers of the source are
nonnegative counters, modelled as `Nat`; the one floating-point operation
(`total_reactions / post_count` rendered with `:.1f`) is modelled exactly:
IEEE-754 binary64 round-to-nearest-even division producing a dyadic
rational, followed by correctly rounded one-decimal formatting, which is
what CPython performs for values inside the normal double range.
-/

set_option autoImplicit false

namespace HW

/-- Prefix test on character lists, modelling the substring search used by
the Python `in` operator. -/
def listIsPrefixOf : List Char → List Char → Bool
  | [], _ => true
  | _ :: _, [] => false
  | a :: as, b :: bs => a = b && listIsPrefixOf as bs

/-- Substring test on character lists: does `needle` occur contiguously in
the second list?  Models Python `needle in haystack` for strings. -/
def listContainsSub (needle : List Char) : List Char → Bool
  | [] => needle.isEmpty
  | c :: cs => listIsPrefixOf needle (c :: cs) || listContainsSub needle cs

/-- Model of Python `needle in haystack` for strings (contiguous substring). -/
def strContains (hay needle : String) : Bool :=
  listContainsSub needle.data hay.data

/-- Model of Python `str.lower` (the messages inspected are ASCII, where
`Char.toLower` agrees with Python). -/
def lowerStr (s : String) : String :=
  String.mk (s.data.map Char.toLower)

/-- Model of `s.replace("Z", "+00:00")` from line 64 of the source: every
occurrence of the character Z is replaced by the six characters of +00:00
(the needle has length one, so Python replaces each occurrence
independently). -/
def replaceZ (s : String) : String :=
  String.mk ((s.data.map (fun c => if c = 'Z' then "+00:00".data else [c])).flatten)

/-- Read exactly `n` decimal digits, most significant first, on top of the
accumulator `acc`; fails if a non-digit or end of input is hit. -/
def readFixedNat : Nat → Nat → List Char → Option (Nat × List Char)
  | 0, acc, cs => some (acc, cs)
  | n + 1, acc, c :: cs =>
      if c.isDigit then readFixedNat n (acc * 10 + (c.toNat - '0'.toNat)) cs
      else none
  | _ + 1, _, [] => none

/-- Consume one expected character. -/
def expectChar (c : Char) : List Char → Option (List Char)
  | d :: cs => if d = c then some cs else none
  | [] => none

/-- Split off the maximal leading run of decimal digits. -/
def spanDigits : List Char → List Char × List Char
  | [] => ([], [])
  | c :: cs =>
      if c.isDigit then
        let p := spanDigits cs
        (c :: p.1, p.2)
      else ([], c :: cs)

/-- Numeric value of a digit run, most significant first. -/
def digitsVal (ds : List Char) : Nat :=
  ds.foldl (fun a c => a * 10 + (c.toNat - '0'.toNat)) 0

/-- Fractional-second digits after the dot: at least one digit, the first
six of which give the microsecond count (later digits are ignored, as in
CPython's ISO parser). -/
def readFrac (cs : List Char) : Option (Nat × List Char) :=
  let p := spanDigits cs
  if p.1.isEmpty then none
  else
    let ds := p.1.take 6
    some (digitsVal ds * 10 ^ (6 - ds.length), p.2)

/-- Proleptic-Gregorian leap-year test, as in Python's datetime. -/
def isLeap (y : Nat) : Bool :=
  (y % 4 == 0 && y % 100 != 0) || y % 400 == 0

/-- Length of month `m` of year `y`. -/
def daysInMonth (y m : Nat) : Nat :=
  if m = 2 then (if isLeap y then 29 else 28)
  else if m = 4 ∨ m = 6 ∨ m = 9 ∨ m = 11 then 30
  else 31

/-- Time-of-day fields produced by parsing an ISO-8601 time. -/
structure TimeParts where
  hour : Nat
  minute : Nat
  second : Nat
  usec : Nat
deriving Repr, DecidableEq

/-- Parse `HH[:MM[:SS[.f+]]]` with Python's range checks (hour below 24,
minute and second below 60). -/
def parseTime (cs : List Char) : Option (TimeParts × List Char) := do
  let (h, cs1) ← readFixedNat 2 0 cs
  if h ≥ 24 then none
  else
    match cs1 with
    | ':' :: cs2 => do
        let (mi, cs3) ← readFixedNat 2 0 cs2
        if mi ≥ 60 then none
        else
          match cs3 with
          | ':' :: cs4 => do
              let (se, cs5) ← readFixedNat 2 0 cs4
              if se ≥ 60 then none
              else
                match cs5 with
                | '.' :: cs6 => do
                    let (us, cs7) ← readFrac cs6
                    some (⟨h, mi, se, us⟩, cs7)
                | _ => some (⟨h, mi, se, 0⟩, cs5)
          | _ => some (⟨h, mi, 0, 0⟩, cs3)
    | _ => some (⟨h, 0, 0, 0⟩, cs1)

/-- Parse the magnitude `HH:MM` of a UTC offset and require end of input;
Python's `timezone` rejects offsets of 24 hours or more. -/
def parseOffMag (sign : Int) (cs : List Char) : Option (Option Int) := do
  let (h, cs1) ← readFixedNat 2 0 cs
  let cs2 ← expectChar ':' cs1
  let (m, cs3) ← readFixedNat 2 0 cs2
  if h ≥ 24 ∨ m ≥ 60 then none
  else if cs3 ≠ [] then none
  else some (some (sign * ((h : Int) * 60 + (m : Int))))

/-- Parse an optional trailing UTC offset `±HH:MM`; `none` in the result's
payload means a naive timestamp (no offset present). -/
def parseOffset (cs : List Char) : Option (Option Int) :=
  match cs with
  | [] => some none
  | '+' :: cs1 => parseOffMag 1 cs1
  | '-' :: cs1 => parseOffMag (-1) cs1
  | _ => none

/-- Result of a successful `datetime.fromisoformat` call: the literal
field values of the timestamp, plus its UTC offset in minutes when one was
written (`none` models a naive datetime). -/
structure PyDateTime where
  year : Nat
  month : Nat
  day : Nat
  hour : Nat
  minute : Nat
  second : Nat
  usec : Nat
  offsetMinutes : Option Int
deriving Repr, DecidableEq

/-- Model of `datetime.fromisoformat` on the grammar
`YYYY-MM-DD[<sep>HH[:MM[:SS[.f+]]][±HH:MM]]`, with Python's validation:
four-digit year at least 1, month 1..12, day valid for the month, hour
below 24, minute and second below 60, offset below 24 hours.  The
separator may be any single character, as in CPython.  Returns `none`
where CPython raises `ValueError`.  (Compact digit forms without dashes,
offsets with seconds, and non-string inputs are outside the model; the
strings the application feeds it are of the modelled shape.) -/
def fromisoformat (s : String) : Option PyDateTime := do
  let cs := s.data
  let (y, cs1) ← readFixedNat 4 0 cs
  let cs2 ← expectChar '-' cs1
  let (mo, cs3) ← readFixedNat 2 0 cs2
  let cs4 ← expectChar '-' cs3
  let (d, cs5) ← readFixedNat 2 0 cs4
  if y = 0 ∨ mo = 0 ∨ mo > 12 ∨ d = 0 then none
  else if d > daysInMonth y mo then none
  else
    match cs5 with
    | [] => some ⟨y, mo, d, 0, 0, 0, 0, none⟩
    | _sep :: rest => do
        let (tp, rest1) ← parseTime rest
        let off ← parseOffset rest1
        some ⟨y, mo, d, tp.hour, tp.minute, tp.second, tp.usec, off⟩

/-- Days from 1970-01-01 of a proleptic-Gregorian civil date
(Hinnant's days-from-civil algorithm). -/
def daysFromCivil (y : Int) (m d : Nat) : Int :=
  let y1 : Int := if m ≤ 2 then y - 1 else y
  let era : Int := Int.fdiv y1 400
  let yoe : Int := y1 - era * 400
  let mp : Nat := (m + 9) % 12
  let doy : Int := ((153 * (mp : Int) + 2) / 5) + (d : Int) - 1
  let doe : Int := yoe * 365 + yoe / 4 - yoe / 100 + doy
  era * 146097 + doe - 719468

/-- Civil year containing the day `z` days after 1970-01-01
(year part of Hinnant's civil-from-days algorithm). -/
def civilYearFromDays (z : Int) : Int :=
  let z1 : Int := z + 719468
  let era : Int := Int.fdiv z1 146097
  let doe : Int := z1 - era * 146097
  let yoe : Int := (doe - doe / 1460 + doe / 36524 - doe / 146096) / 365
  let y : Int := yoe + era * 400
  let doy : Int := doe - (365 * yoe + yoe / 4 - yoe / 100)
  let mp : Int := (5 * doy + 2) / 153
  let m : Int := if mp < 10 then mp + 3 else mp - 9
  if m ≤ 2 then y + 1 else y

/-- Calendar year of the instant denoted by `dt` when converted to UTC.
This definition follows the specification's words — the year compared is
"the UTC calendar year of the instant" — for comparison against what the
source code actually computes (the raw `year` field).  A naive timestamp
is its own UTC reading.  Offsets are whole minutes, so seconds and
microseconds cannot move the minute-level day boundary. -/
def utcYear (dt : PyDateTime) : Int :=
  match dt.offsetMinutes with
  | none => (dt.year : Int)
  | some off =>
      let totalMin : Int :=
        daysFromCivil (dt.year : Int) dt.month dt.day * 1440
          + (dt.hour : Int) * 60 + (dt.minute : Int) - off
      civilYearFromDays (Int.fdiv totalMin 1440)

/-- Floor of `2 ≤ n` binary logarithm computed with structural fuel, so
that the kernel can evaluate it (`natLog2Aux n n` suffices since halving
strictly decreases a positive number). -/
def natLog2Aux : Nat → Nat → Nat
  | 0, _ => 0
  | fuel + 1, n => if 2 ≤ n then natLog2Aux fuel (n / 2) + 1 else 0

/-- Floor of the binary logarithm of a positive natural number. -/
def natLog2 (n : Nat) : Nat := natLog2Aux n n

/-- Nonnegative dyadic rational `mant * 2 ^ exp`, the exact value of a
nonnegative IEEE-754 binary64 number. -/
structure Dyadic where
  mant : Nat
  exp : Int
deriving Repr, DecidableEq

/-- Round the fraction `num / den` (with `den > 0`) to the nearest natural
number, ties to the even one — the rounding mode of both IEEE-754 binary
arithmetic and CPython's float formatting. -/
def roundHalfEvenFrac (num den : Nat) : Nat :=
  let q := num / den
  let r := num % den
  if 2 * r < den then q
  else if den < 2 * r then q + 1
  else if q % 2 = 0 then q else q + 1

/-- Decision of `a / b < 2 ^ k` for naturals `a, b > 0` and signed `k`,
by clearing denominators. -/
def ltPow2 (a b : Nat) (k : Int) : Bool :=
  match k with
  | Int.ofNat n => a < b * 2 ^ n
  | Int.negSucc n => a * 2 ^ (n + 1) < b

/-- Exact value of the IEEE-754 binary64 quotient `a / b` of two
nonnegative integers, modelling Python's float true division on line 83:
with `e` the exponent of the quotient (`2 ^ e ≤ a / b < 2 ^ (e + 1)`),
the quotient is scaled to `[2 ^ 52, 2 ^ 53)` and rounded to an integer
mantissa with ties to even.  Exponent overflow and underflow (quotients
at or beyond 2 ^ 1024 or below 2 ^ -1022) are not clamped; the reaction
counts and post counts the application divides are far inside the normal
range.  The `b = 0` branch is never reached: the source only divides when
`post_count > 0`. -/
def floatDiv (a b : Nat) : Dyadic :=
  if a = 0 ∨ b = 0 then ⟨0, 0⟩
  else
    let e0 : Int := (natLog2 a : Int) - (natLog2 b : Int)
    let e : Int := if ltPow2 a b e0 then e0 - 1 else e0
    let s : Nat :=
      match 52 - e with
      | Int.ofNat n => roundHalfEvenFrac (a * 2 ^ n) b
      | Int.negSucc n => roundHalfEvenFrac a (b * 2 ^ (n + 1))
    ⟨s, e - 52⟩

/-- Model of the format specifier `:.1f` applied to a nonnegative double
of exact value `d`: CPython prints the correctly rounded one-decimal
rendering of the float's exact binary value, with ties to even (a dyadic
rational is never exactly at a one-decimal tie, so the tie branch is
unreachable on real doubles). -/
def formatFixed1 (d : Dyadic) : String :=
  let n : Nat :=
    match d.exp with
    | Int.ofNat k => 10 * d.mant * 2 ^ k
    | Int.negSucc k => roundHalfEvenFrac (10 * d.mant) (2 ^ (k + 1))
  toString (n / 10) ++ "." ++ toString (n % 10)

/-- Insert a comma every three digits from the right, modelling the format
specifier `:,` applied to a nonnegative int on line 78. -/
def groupThrees : List Char → List Char
  | d1 :: d2 :: d3 :: d4 :: r => d1 :: d2 :: d3 :: ',' :: groupThrees (d4 :: r)
  | l => l

/-- Model of Python `f"{n:,}"` for a nonnegative integer. -/
def formatThousands (n : Nat) : String :=
  String.mk (groupThrees (toString n).data.reverse).reverse

/-- Badge object of the API response; only its presence is consumed. -/
structure Badge where
  name : Option String
deriving Repr, DecidableEq

/-- Post object of the API response.  Every field the code reads is
optional, mirroring `dict.get`: an absent key is `none`.  The numeric
fields are the nonnegative counters of the API. -/
structure Post where
  title : Option String
  publishedAt : Option String
  views : Option Nat
  reactionCount : Option Nat
  replyCount : Option Nat
deriving Repr, DecidableEq

/-- The `posts` connection object `\x7b nodes: [...] \x7d`. -/
structure PostsConn where
  nodes : Option (List Post)
deriving Repr, DecidableEq

/-- Raw user record handed to `process_stats` (the `data.user` object). -/
structure UserData where
  username : Option String
  followersCount : Option Nat
  badges : Option (List Badge)
  posts : Option PostsConn
deriving Repr, DecidableEq

/-- One rendered statistic, as stored in `stats_items`. -/
structure DisplayItem where
  title : String
  value : String
  description : String
deriving Repr, DecidableEq

/-- The mutable fields of the reflex `State` object that `process_stats`
touches, plus the ones it leaves alone.  `user_data` starts as the empty
dict, modelled as `none`. -/
structure AppState where
  username : String
  is_loading : Bool
  error_message : Option String
  user_data : Option UserData
  stats_items : List DisplayItem
  user_display_name : String
  posts_2024 : List Post
  post_count : Nat
deriving Repr, DecidableEq

/-- Initial state of the `State` class. -/
def initState : AppState :=
  { username := "", is_loading := false, error_message := none,
    user_data := none, stats_items := [], user_display_name := "",
    posts_2024 := [], post_count := 0 }

/-- Line 60: `user_data.get("posts", \x7b\x7d).get("nodes", [])`. -/
def allPostsOf (u : UserData) : List Post :=
  ((u.posts.getD { nodes := none }).nodes.getD [])

/-- Decision of the comprehension filter on lines 62-64 for one post:
`ok false` when the `publishedAt` value is absent or falsy (the empty
string), otherwise the parsed year is compared with 2024; a present but
unparsable value raises `ValueError` out of the comprehension, modelled
as `error`. -/
def keep2024 (p : Post) : Except String Bool :=
  match p.publishedAt with
  | none => Except.ok false
  | some s =>
      if s = "" then Except.ok false
      else
        match fromisoformat (replaceZ s) with
        | none => Except.error ("Invalid isoformat string: " ++ s)
        | some dt => Except.ok (dt.year == 2024)

/-- The list comprehension of lines 61-65: posts are tested left to right
and the first raising post aborts the whole comprehension. -/
def filterPostsE : List Post → Except String (List Post)
  | [] => Except.ok []
  | p :: ps =>
      match keep2024 p with
      | Except.error e => Except.error e
      | Except.ok b =>
          match filterPostsE ps with
          | Except.error e => Except.error e
          | Except.ok rest => Except.ok (if b then p :: rest else rest)

/-- Line 70: sum of `post.get("views", 0)` over the filtered posts. -/
def totalViewsOf (ps : List Post) : Nat :=
  (ps.map (fun p => p.views.getD 0)).sum

/-- Line 71: sum of `post.get("reactionCount", 0)` over the filtered posts. -/
def totalReactionsOf (ps : List Post) : Nat :=
  (ps.map (fun p => p.reactionCount.getD 0)).sum

/-- Line 73: `len(user_data.get("badges", [])) if user_data.get("badges")
else 0` — an absent or empty badges list is falsy and yields 0. -/
def badgesCountOf (u : UserData) : Nat :=
  match u.badges with
  | some (b :: bs) => (b :: bs).length
  | _ => 0

/-- Lines 76-85: the six displayed metrics, in source order, with the
source's formatting of each value. -/
def statsItemsOf (u : UserData) (posts2024 : List Post) : List DisplayItem :=
  [ { title := "Total Articles", value := toString posts2024.length,
      description := "Articles published in 2024" },
    { title := "Total Views", value := formatThousands (totalViewsOf posts2024),
      description := "Content views in 2024" },
    { title := "Total Reactions", value := toString (totalReactionsOf posts2024),
      description := "Reactions in 2024" },
    { title := "Followers", value := toString (u.followersCount.getD 0),
      description := "Total followers" },
    { title := "Badges Earned", value := toString (badgesCountOf u),
      description := "Total badges collected" },
    { title := "Avg. Reactions",
      value := if 0 < posts2024.length then
          formatFixed1 (floatDiv (totalReactionsOf posts2024) posts2024.length)
        else "0",
      description := "Average reactions per post" } ]

/-- Body of the `try` block of `process_stats` (lines 57-85).  The only
raising operation reachable in the typed model is the timestamp parse
inside the comprehension; `self.user_data = user_data` on line 57 has
already executed when it raises. -/
def processStatsBody (s : AppState) (u : UserData) : Except String AppState :=
  match filterPostsE (allPostsOf u) with
  | Except.error e => Except.error e
  | Except.ok posts2024 =>
      Except.ok { s with
        user_data := some u,
        posts_2024 := posts2024,
        post_count := posts2024.length,
        user_display_name := u.username.getD "",
        stats_items := statsItemsOf u posts2024 }

/-- Model of `State.process_stats` (lines 54-89).  On an exception the
`except` clause leaves every already-assigned field in place (only
`user_data` was assigned before the raise point) and sets
`stats_items = []` and `post_count = 0`. -/
def process_stats (s : AppState) (u : UserData) : AppState :=
  match processStatsBody s u with
  | Except.ok s2 => s2
  | Except.error _ => { s with user_data := some u, stats_items := [], post_count := 0 }

/-- One GraphQL error object `\x7b message: ... \x7d`. -/
structure GqlError where
  message : Option String
deriving Repr, DecidableEq

/-- The `data` field of the response body. -/
structure DataField where
  user : Option UserData
deriving Repr, DecidableEq

/-- Parsed 2xx response body.  `errors = none` models an absent `errors`
key; GraphQL's `errors`, when present, is a list.  `data_ = none` models
an absent `data` key (line 138 defaults it to the empty dict).  An empty
`user` object cannot occur: GraphQL returns every selected field. -/
structure GqlResponse where
  errors : Option (List GqlError)
  data_ : Option DataField
deriving Repr, DecidableEq

/-- Classified outcome of one submission, mirroring which branch of
`handle_submit` runs and the payload it uses. -/
inductive SubmitOutcome where
  | success (u : UserData)
  | unauthorized
  | forbidden
  | apiError (msg : String)
  | notFound
  | httpError (status : Nat) (detail : String)
  | networkError (detail : String)
  | unexpected (detail : String)
deriving Repr, DecidableEq

/-- Line 132: case-insensitive substring test of the first error message
for the words unauthorized or authentication. -/
def authMatch (m : String) : Bool :=
  strContains (lowerStr m) "unauthorized" || strContains (lowerStr m) "authentication"

/-- Lines 130-143: classification of a successfully decoded 2xx body.
An `errors` key selects lines 130-136 (an empty list would make
`data["errors"][0]` raise `IndexError`, caught by the outer handler);
otherwise a falsy `data.user` selects line 138's not-found branch. -/
def classifyBody (r : GqlResponse) : SubmitOutcome :=
  match r.errors with
  | some [] => SubmitOutcome.unexpected "list index out of range"
  | some (e :: _) =>
      let msg := e.message.getD "Unknown GraphQL error"
      if authMatch msg then SubmitOutcome.unauthorized
      else SubmitOutcome.apiError msg
  | none =>
      match r.data_ with
      | none => SubmitOutcome.notFound
      | some d =>
          match d.user with
          | none => SubmitOutcome.notFound
          | some u => SubmitOutcome.success u

/-- Outcome of the single HTTP attempt `handle_submit` makes: either a
transport-level failure (`httpx.RequestError`, carrying its text) or a
response with a status code, the text an `HTTPStatusError` would carry,
and the decoded JSON body (`none` when `response.json()` would raise). -/
inductive HttpResult where
  | transportError (detail : String)
  | response (status : Nat) (detail : String) (body : Option GqlResponse)
deriving Repr, DecidableEq

/-- Lines 124-153: `response.raise_for_status()` raises `HTTPStatusError`
for every non-2xx status, which the handlers map to 401, 403 and generic
branches; `httpx.RequestError` maps to the network branch; a 2xx body is
decoded and classified by `classifyBody`. -/
def classifyResult : HttpResult → SubmitOutcome
  | HttpResult.transportError d => SubmitOutcome.networkError d
  | HttpResult.response status d body =>
      if 200 ≤ status ∧ status ≤ 299 then
        match body with
        | none => SubmitOutcome.unexpected d
        | some r => classifyBody r
      else if status = 401 then SubmitOutcome.unauthorized
      else if status = 403 then SubmitOutcome.forbidden
      else SubmitOutcome.httpError status d

/-- Record with every numeric or list field explicitly defaulted the way
the `dict.get` calls of lines 70-73 default them: absent `views` and
`reactionCount` become explicit zeros, absent `followersCount` becomes an
explicit zero, an absent badge list becomes an explicit empty list.
Aggregation treating a record and its defaulted form identically is the
content of the missing-field claims. -/
def normalizePost (p : Post) : Post :=
  { p with views := some (p.views.getD 0), reactionCount := some (p.reactionCount.getD 0) }

/-- Defaulted form of a whole user record; see `normalizePost`. -/
def normalizeUser (u : UserData) : UserData :=
  { u with
    followersCount := some (u.followersCount.getD 0),
    badges := some (u.badges.getD []),
    posts := some { nodes := some ((allPostsOf u).map normalizePost) } }

/-- Concrete 2024 post of the specification's worked scenario. -/
def pG : Post :=
  { title := some "a", publishedAt := some "2024-03-01T00:00:00Z",
    views := some 100, reactionCount := some 10, replyCount := some 0 }

/-- Concrete 2023 post of the specification's worked scenario. -/
def pOld : Post :=
  { title := some "b", publishedAt := some "2023-12-31T23:59:59Z",
    views := some 50, reactionCount := some 5, replyCount := some 0 }

/-- Post whose publication timestamp is present but unparsable. -/
def pBadTS : Post :=
  { title := some "c", publishedAt := some "garbage",
    views := some 7, reactionCount := some 7, replyCount := some 0 }

/-- Post with no publication timestamp at all. -/
def pNoTS : Post :=
  { title := some "d", publishedAt := none,
    views := some 7, reactionCount := some 7, replyCount := some 0 }

/-- Post published 2024-12-31 23:00 at UTC offset -05:00: its own calendar
year is 2024 while the UTC calendar year of the instant is 2025. -/
def pOffset : Post :=
  { title := some "e", publishedAt := some "2024-12-31T23:00:00-05:00",
    views := some 1, reactionCount := some 1, replyCount := some 0 }

/-- Parse result of the timestamp of `pOffset`. -/
def dtOffset : PyDateTime :=
  { year := 2024, month := 12, day := 31, hour := 23, minute := 0,
    second := 0, usec := 0, offsetMinutes := some (-300) }

/-- Parse result of the timestamp of `pOld`. -/
def dtOld : PyDateTime :=
  { year := 2023, month := 12, day := 31, hour := 23, minute := 59,
    second := 59, usec := 0, offsetMinutes := some 0 }

/-- Parse result of the timestamp of `pG`. -/
def dtG : PyDateTime :=
  { year := 2024, month := 3, day := 1, hour := 0, minute := 0,
    second := 0, usec := 0, offsetMinutes := some 0 }

/-- Post from 2024 carrying no views and no reactionCount key. -/
def pNoNums : Post :=
  { title := some "f", publishedAt := some "2024-06-15T10:00:00Z",
    views := none, reactionCount := none, replyCount := none }

/-- Three 2024 posts whose reactions sum to 12345, for the average of the
specification's example 12345 / 3. -/
def pR1 : Post :=
  { title := some "r1", publishedAt := some "2024-01-02T08:00:00Z",
    views := some 10, reactionCount := some 12000, replyCount := some 0 }

/-- Second of the three example posts. -/
def pR2 : Post :=
  { title := some "r2", publishedAt := some "2024-05-06T08:00:00Z",
    views := some 20, reactionCount := some 300, replyCount := some 0 }

/-- Third of the three example posts. -/
def pR3 : Post :=
  { title := some "r3", publishedAt := some "2024-09-10T08:00:00Z",
    views := some 30, reactionCount := some 45, replyCount := some 0 }

/-- Post with a seven-digit view count, to exercise the thousands
separator. -/
def pViews : Post :=
  { title := some "v", publishedAt := some "2024-04-01T00:00:00Z",
    views := some 1234567, reactionCount := some 3, replyCount := some 0 }

/-- User record of the specification's worked scenario. -/
def uScenario : UserData :=
  { username := some "soph", followersCount := some 10,
    badges := some [{ name := some "a" }],
    posts := some { nodes := some [pG, pOld] } }

/-- User record for the 12345 / 3 average example. -/
def uAvg : UserData :=
  { username := some "soph", followersCount := some 2,
    badges := some [], posts := some { nodes := some [pR1, pR2, pR3] } }

/-- Record containing a valid 2024 post next to an unparsable one. -/
def uBadTS : UserData :=
  { username := some "soph", followersCount := some 10,
    badges := some [{ name := some "a" }],
    posts := some { nodes := some [pG, pBadTS] } }

/-- Record whose only post carries a non-UTC offset straddling new year. -/
def uOffset : UserData :=
  { username := some "soph", followersCount := some 0,
    badges := none, posts := some { nodes := some [pOffset] } }

/-- Record with every optional numeric and list field absent. -/
def uAllMissing : UserData :=
  { username := none, followersCount := none,
    badges := none, posts := some { nodes := some [pNoNums] } }

/-- Record with a seven-digit total view count. -/
def uViews : UserData :=
  { username := some "soph", followersCount := some 4,
    badges := some [{ name := some "a" }, { name := some "b" }],
    posts := some { nodes := some [pViews] } }

/-- First GraphQL error object of the unauthorized witness body. -/
def eAuth : GqlError := { message := some "Unauthorized: invalid token" }

/-- First GraphQL error object of the generic-API witness body. -/
def eApi : GqlError := { message := some "boom" }

/-- Body carrying an authorization-flavoured error. -/
def rAuth : GqlResponse := { errors := some [eAuth], data_ := none }

/-- Body carrying an unrelated error message. -/
def rApi : GqlResponse := { errors := some [eApi], data_ := none }

/-- Body with no errors and a null user. -/
def rNoUser : GqlResponse := { errors := none, data_ := some { user := none } }

/-- Body with no errors and a present user. -/
def rOk : GqlResponse := { errors := none, data_ := some { user := some uScenario } }

/-- Removing a post the year filter rejects does not change the outcome of
the comprehension of lines 61-65. -/
theorem filterPostsE_skip (p : Post) (hp : keep2024 p = Except.ok false)
    (xs ys : List Post) : filterPostsE (xs ++ p :: ys) = filterPostsE (xs ++ ys) := by
  induction xs with
  | nil =>
      simp only [List.nil_append, filterPostsE, hp]
      cases h : filterPostsE ys <;> simp [h]
  | cons x xs ih =>
      simp only [List.cons_append, filterPostsE, List.append_eq, ih]

/-- A post on which the year filter raises makes the whole comprehension
of lines 61-65 raise, whatever surrounds it. -/
theorem filterPostsE_raise (p : Post) (e : String) (hp : keep2024 p = Except.error e)
    (xs ys : List Post) : ∃ e2, filterPostsE (xs ++ p :: ys) = Except.error e2 := by
  induction xs with
  | nil => exact ⟨e, by simp [filterPostsE, hp]⟩
  | cons x xs ih =>
      rcases ih with ⟨e2, he2⟩
      cases hx : keep2024 x with
      | error e3 => exact ⟨e3, by simp [filterPostsE, hx]⟩
      | ok b => exact ⟨e2, by simp [filterPostsE, hx, he2]⟩

/-- Successful aggregation inverted: the comprehension succeeded and the
result state is the record update of lines 57-85. -/
theorem processStatsBody_ok_elim {s : AppState} {u : UserData} {s2 : AppState}
    (h : processStatsBody s u = Except.ok s2) :
    ∃ ps, filterPostsE (allPostsOf u) = Except.ok ps ∧
      s2 = { s with
        user_data := some u,
        posts_2024 := ps,
        post_count := ps.length,
        user_display_name := u.username.getD "",
        stats_items := statsItemsOf u ps } := by
  unfold processStatsBody at h
  cases h2 : filterPostsE (allPostsOf u) with
  | error e => rw [h2] at h; exact absurd h (by simp)
  | ok ps => rw [h2] at h; exact ⟨ps, rfl, (Except.ok.injEq _ _ ▸ h).symm⟩

/-- A present but non-empty and unparsable publishedAt makes the filter
raise. -/
theorem keep2024_raises {p : Post} {str : String}
    (hp : p.publishedAt = some str) (hne : str ≠ "")
    (hbad : fromisoformat (replaceZ str) = none) :
    keep2024 p = Except.error ("Invalid isoformat string: " ++ str) := by
  simp [keep2024, hp, hne, hbad]

/-- A parsable publishedAt is filtered by comparing its own year field
with 2024. -/
theorem keep2024_year {p : Post} {str : String} {dt : PyDateTime}
    (hp : p.publishedAt = some str)
    (hparse : fromisoformat (replaceZ str) = some dt) :
    keep2024 p = Except.ok (dt.year == 2024) := by
  have hne : str ≠ "" := by
    intro h0
    rw [h0] at hparse
    rw [(by decide : fromisoformat (replaceZ "") = (none : Option PyDateTime))] at hparse
    exact Option.noConfusion hparse
  simp [keep2024, hp, hne, hparse]

/-- Dropping one post the filter rejects leaves every computed output of
`process_stats` unchanged (the stored raw record of course differs: it
holds whichever record was passed). -/
theorem process_stats_skip (s : AppState) (u : UserData) (xs ys : List Post)
    (p : Post) (hk : keep2024 p = Except.ok false) :
    (process_stats s { u with posts := some { nodes := some (xs ++ p :: ys) } }).stats_items
      = (process_stats s { u with posts := some { nodes := some (xs ++ ys) } }).stats_items ∧
    (process_stats s { u with posts := some { nodes := some (xs ++ p :: ys) } }).post_count
      = (process_stats s { u with posts := some { nodes := some (xs ++ ys) } }).post_count ∧
    (process_stats s { u with posts := some { nodes := some (xs ++ p :: ys) } }).posts_2024
      = (process_stats s { u with posts := some { nodes := some (xs ++ ys) } }).posts_2024 := by
  have hall1 : allPostsOf { u with posts := some { nodes := some (xs ++ p :: ys) } }
      = xs ++ p :: ys := rfl
  have hall2 : allPostsOf { u with posts := some { nodes := some (xs ++ ys) } }
      = xs ++ ys := rfl
  unfold process_stats processStatsBody
  rw [hall1, hall2, filterPostsE_skip p hk xs ys]
  cases h : filterPostsE (xs ++ ys) with
  | error e => simp
  | ok ps => simp [statsItemsOf, badgesCountOf]

/-- Claim C9: aggregation never mutates the input record.  The source
aliases the input dict into `self.user_data` on line 57 and afterwards
only reads from it, so the record held in state when `process_stats`
returns — on the success path and on the degrade path alike — is the
input record with every field (username, followersCount, badges, posts
and each post's fields) unchanged. -/
theorem C9_input_never_mutated (s : AppState) (u : UserData) :
    (process_stats s u).user_data = some u := by
  unfold process_stats processStatsBody
  cases h : filterPostsE (allPostsOf u) <;> simp [h]

/-- Claim C3: an error raised inside the aggregation body never
propagates: the `except` clause of lines 86-89 turns it into an empty
metric list and a zero post count. -/
theorem C3_degrade_to_empty (s : AppState) (u : UserData) (e : String)
    (h : processStatsBody s u = Except.error e) :
    (process_stats s u).stats_items = [] ∧ (process_stats s u).post_count = 0 := by
  unfold process_stats
  rw [h]
  exact ⟨rfl, rfl⟩

/-- Witness for C3: a record holding an unparsable timestamp degrades to
empty metrics and a zero count. -/
theorem C3_witness :
    (process_stats initState uBadTS).stats_items = [] ∧
      (process_stats initState uBadTS).post_count = 0 :=
  C3_degrade_to_empty initState uBadTS ("Invalid isoformat string: garbage") rfl

/-- Claim C1: the Avg. Reactions metric is the string 0 when no post
survives the year filter (no division occurs), and otherwise the float
quotient of total reactions by the post count rendered with one decimal
place. -/
theorem C1_avg_reactions (s : AppState) (u : UserData) (s2 : AppState)
    (h : processStatsBody s u = Except.ok s2) :
    (s2.stats_items.get? 5).map DisplayItem.value =
      some (if s2.post_count = 0 then "0"
            else formatFixed1 (floatDiv (totalReactionsOf s2.posts_2024) s2.post_count)) := by
  rcases processStatsBody_ok_elim h with ⟨ps, hps, rfl⟩
  rcases Nat.eq_zero_or_pos ps.length with h0 | h0
  · simp [statsItemsOf, h0]
  · simp [statsItemsOf, h0, Nat.pos_iff_ne_zero.mp h0]

/-- Witness for C1: 12345 reactions over 3 posts renders as 4115.0. -/
theorem C1_witness :
    ((process_stats initState uAvg).stats_items.get? 5).map DisplayItem.value
      = some "4115.0" := by
  have h := C1_avg_reactions initState uAvg (process_stats initState uAvg) rfl
  rw [h]
  decide

/-- Claim C2: a post whose publishedAt parses to a year other than 2024 is
excluded from the post count, the view sum and the reaction sum (removing
it changes no computed output), and on success the post count is the
number of retained posts, is the Total Articles value, and is the divisor
of Avg. Reactions. -/
theorem C2_year_filter (s : AppState) (u : UserData) (xs ys : List Post)
    (p : Post) (str : String) (dt : PyDateTime)
    (hp : p.publishedAt = some str)
    (hparse : fromisoformat (replaceZ str) = some dt)
    (hyear : dt.year ≠ 2024) :
    ((process_stats s { u with posts := some { nodes := some (xs ++ p :: ys) } }).stats_items
       = (process_stats s { u with posts := some { nodes := some (xs ++ ys) } }).stats_items ∧
     (process_stats s { u with posts := some { nodes := some (xs ++ p :: ys) } }).post_count
       = (process_stats s { u with posts := some { nodes := some (xs ++ ys) } }).post_count ∧
     (process_stats s { u with posts := some { nodes := some (xs ++ p :: ys) } }).posts_2024
       = (process_stats s { u with posts := some { nodes := some (xs ++ ys) } }).posts_2024) ∧
    (∀ s2, processStatsBody s u = Except.ok s2 →
       s2.post_count = s2.posts_2024.length ∧
       s2.stats_items.get? 0 = some
         { title := "Total Articles", value := toString s2.post_count,
           description := "Articles published in 2024" } ∧
       (s2.stats_items.get? 5).map DisplayItem.value =
         some (if s2.post_count = 0 then "0"
               else formatFixed1 (floatDiv (totalReactionsOf s2.posts_2024) s2.post_count))) := by
  have hk : keep2024 p = Except.ok false := by
    rw [keep2024_year hp hparse]
    simp [beq_eq_false_iff_ne.mpr hyear]
  refine ⟨process_stats_skip s u xs ys p hk, ?_⟩
  intro s2 h
  rcases processStatsBody_ok_elim h with ⟨ps, hps, rfl⟩
  refine ⟨rfl, rfl, ?_⟩
  rcases Nat.eq_zero_or_pos ps.length with h0 | h0
  · simp [statsItemsOf, h0]
  · simp [statsItemsOf, h0, Nat.pos_iff_ne_zero.mp h0]

/-- Witness for C2: removing the 2023 post of the specification scenario
changes no output, and on the scenario record the count equals the
retained-post count. -/
theorem C2_witness :
    ((process_stats initState { uScenario with posts := some { nodes := some ([pG] ++ pOld :: []) } }).post_count
       = (process_stats initState { uScenario with posts := some { nodes := some ([pG] ++ ([] : List Post)) } }).post_count) ∧
    (process_stats initState uScenario).post_count
      = (process_stats initState uScenario).posts_2024.length := by
  have h := C2_year_filter initState uScenario [pG] [] pOld "2023-12-31T23:59:59Z" dtOld rfl (by decide) (by decide)
  exact ⟨h.1.2.1, (h.2 (process_stats initState uScenario) rfl).1⟩

/-- Counterexample to claim C4 as stated: in the record below a valid 2024
post with 100 views stands next to a post whose publishedAt is present but
unparsable.  Were the unparsable post merely dropped while the rest
aggregated normally, the post count would be 1 and six metrics would be
produced; instead the whole aggregation degrades to no metrics and a zero
count. -/
theorem C4_counterexample :
    (process_stats initState uBadTS).stats_items = [] ∧
      (process_stats initState uBadTS).post_count = 0 ∧
      filterPostsE [pG] = Except.ok [pG] := by
  refine ⟨rfl, rfl, rfl⟩

/-- Claim C4 as amended: a post whose publishedAt is absent (or the falsy
empty string) is dropped silently and the remaining posts aggregate
normally; but a post whose publishedAt is present, non-empty and
unparsable raises inside the comprehension, and the entire aggregation
degrades to an empty metric list and a zero post count (no error is
surfaced to the caller in either case). -/
theorem C4_missing_dropped_unparsable_degrades :
    (∀ (s : AppState) (u : UserData) (xs ys : List Post) (p : Post),
       (p.publishedAt = none ∨ p.publishedAt = some "") →
       ((process_stats s { u with posts := some { nodes := some (xs ++ p :: ys) } }).stats_items
          = (process_stats s { u with posts := some { nodes := some (xs ++ ys) } }).stats_items ∧
        (process_stats s { u with posts := some { nodes := some (xs ++ p :: ys) } }).post_count
          = (process_stats s { u with posts := some { nodes := some (xs ++ ys) } }).post_count ∧
        (process_stats s { u with posts := some { nodes := some (xs ++ p :: ys) } }).posts_2024
          = (process_stats s { u with posts := some { nodes := some (xs ++ ys) } }).posts_2024)) ∧
    (∀ (s : AppState) (u : UserData) (xs ys : List Post) (p : Post) (str : String),
       p.publishedAt = some str → str ≠ "" → fromisoformat (replaceZ str) = none →
       (process_stats s { u with posts := some { nodes := some (xs ++ p :: ys) } }).stats_items = [] ∧
       (process_stats s { u with posts := some { nodes := some (xs ++ p :: ys) } }).post_count = 0) := by
  constructor
  · intro s u xs ys p hp
    have hk : keep2024 p = Except.ok false := by
      rcases hp with hp | hp <;> simp [keep2024, hp]
    exact process_stats_skip s u xs ys p hk
  · intro s u xs ys p str hp hne hbad
    have hk := keep2024_raises hp hne hbad
    rcases filterPostsE_raise p ("Invalid isoformat string: " ++ str) hk xs ys with ⟨e2, he2⟩
    have hall : allPostsOf { u with posts := some { nodes := some (xs ++ p :: ys) } }
        = xs ++ p :: ys := rfl
    unfold process_stats processStatsBody
    rw [hall, he2]
    exact ⟨rfl, rfl⟩

/-- Witness for C4 as amended: a post with no publishedAt is dropped while
its neighbour aggregates, and a post with the unparsable timestamp
garbage empties the whole result. -/
theorem C4_witness :
    ((process_stats initState { uScenario with posts := some { nodes := some ([pG] ++ pNoTS :: []) } }).post_count
       = (process_stats initState { uScenario with posts := some { nodes := some ([pG] ++ ([] : List Post)) } }).post_count) ∧
    (process_stats initState { uScenario with posts := some { nodes := some ([pG] ++ pBadTS :: []) } }).stats_items = [] := by
  have h := C4_missing_dropped_unparsable_degrades
  exact ⟨(h.1 initState uScenario [pG] [] pNoTS (Or.inl rfl)).2.1,
    (h.2 initState uScenario [pG] [] pBadTS "garbage" rfl (by decide) (by decide)).1⟩

/-- Counterexample to claim C5 as stated: the timestamp
2024-12-31T23:00:00-05:00 denotes the instant 2025-01-01T04:00:00 UTC, so
its UTC calendar year is 2025; the claim therefore demands that the post
be excluded from a 2024 filter, yet the code retains it (the filter reads
the raw year field, 2024, written in the timestamp's own offset). -/
theorem C5_counterexample :
    fromisoformat (replaceZ "2024-12-31T23:00:00-05:00") = some dtOffset ∧
    utcYear dtOffset = 2025 ∧
    keep2024 pOffset = Except.ok true ∧
    (process_stats initState uOffset).post_count = 1 := by
  refine ⟨by decide, by decide, rfl, rfl⟩

/-- Claim C5 as amended: a trailing Z is treated as the UTC offset +00:00,
and the year compared against 2024 is the timestamp's own calendar year —
the raw year field read in the timestamp's recorded offset, with no
conversion of the instant to UTC — so a timestamp carrying a non-UTC
offset is filtered by its local year even when its UTC year differs. -/
theorem C5_local_year_filter (p : Post) (str : String) (dt : PyDateTime)
    (hp : p.publishedAt = some str)
    (hparse : fromisoformat (replaceZ str) = some dt) :
    keep2024 p = Except.ok (dt.year == 2024) ∧
    (∀ cs : List Char,
      (replaceZ (String.mk (cs ++ ['Z']))).data
        = (replaceZ (String.mk cs)).data ++ "+00:00".data) := by
  refine ⟨keep2024_year hp hparse, ?_⟩
  intro cs
  simp [replaceZ]

/-- Witness for C5 as amended: the post published 2024-03-01T00:00:00Z is
retained because its own year field is 2024. -/
theorem C5_witness : keep2024 pG = Except.ok true := by
  have h := C5_local_year_filter pG "2024-03-01T00:00:00Z" dtG rfl (by decide)
  rw [h.1]
  rfl

/-- Claim C6: every successful aggregation emits exactly these six metrics
in this order; Total Views is rendered with thousands separators while
Total Articles, Total Reactions, Followers and Badges Earned are plain
decimal renderings of integers. -/
theorem C6_six_metrics (s : AppState) (u : UserData) (s2 : AppState)
    (h : processStatsBody s u = Except.ok s2) :
    s2.stats_items =
      [ { title := "Total Articles", value := toString s2.posts_2024.length,
          description := "Articles published in 2024" },
        { title := "Total Views", value := formatThousands (totalViewsOf s2.posts_2024),
          description := "Content views in 2024" },
        { title := "Total Reactions", value := toString (totalReactionsOf s2.posts_2024),
          description := "Reactions in 2024" },
        { title := "Followers", value := toString (u.followersCount.getD 0),
          description := "Total followers" },
        { title := "Badges Earned", value := toString (badgesCountOf u),
          description := "Total badges collected" },
        { title := "Avg. Reactions",
          value := if 0 < s2.posts_2024.length then
              formatFixed1 (floatDiv (totalReactionsOf s2.posts_2024) s2.posts_2024.length)
            else "0",
          description := "Average reactions per post" } ] := by
  rcases processStatsBody_ok_elim h with ⟨ps, hps, rfl⟩
  rfl

/-- Witness for C6: the record with 1234567 views yields six metrics whose
second value carries thousands separators. -/
theorem C6_witness :
    (process_stats initState uViews).stats_items.length = 6 ∧
    ((process_stats initState uViews).stats_items.get? 1).map DisplayItem.value
      = some "1,234,567" := by
  have h := C6_six_metrics initState uViews (process_stats initState uViews) rfl
  rw [h]
  exact ⟨rfl, by decide⟩

/-- Claim C7: classification of a 2xx body.  With an error list present,
the first error's message decides between the unauthorized outcome (on a
case-insensitive substring match for unauthorized or authentication) and
the generic API-error outcome carrying the message; with no errors, a null
or absent user yields the not-found outcome, and otherwise the user record
is produced. -/
theorem C7_body_classification :
    (∀ (r : GqlResponse) (e : GqlError) (rest : List GqlError),
       r.errors = some (e :: rest) →
       (authMatch (e.message.getD "Unknown GraphQL error") = true →
          classifyBody r = SubmitOutcome.unauthorized) ∧
       (authMatch (e.message.getD "Unknown GraphQL error") = false →
          classifyBody r = SubmitOutcome.apiError (e.message.getD "Unknown GraphQL error"))) ∧
    (∀ r : GqlResponse, r.errors = none →
       (r.data_ = none ∨ r.data_ = some { user := none }) →
       classifyBody r = SubmitOutcome.notFound) ∧
    (∀ (r : GqlResponse) (u : UserData), r.errors = none →
       r.data_ = some { user := some u } →
       classifyBody r = SubmitOutcome.success u) := by
  refine ⟨?_, ?_, ?_⟩
  · intro r e rest he
    constructor <;> intro hm <;> simp [classifyBody, he, hm]
  · intro r he hd
    rcases hd with hd | hd <;> simp [classifyBody, he, hd]
  · intro r u he hd
    simp [classifyBody, he, hd]

/-- Witness for C7: one concrete body per branch. -/
theorem C7_witness :
    classifyBody rAuth = SubmitOutcome.unauthorized ∧
    classifyBody rApi = SubmitOutcome.apiError "boom" ∧
    classifyBody rNoUser = SubmitOutcome.notFound ∧
    classifyBody rOk = SubmitOutcome.success uScenario := by
  refine ⟨(C7_body_classification.1 rAuth eAuth [] rfl).1 (by decide), ?_,
          C7_body_classification.2.1 rNoUser rfl (Or.inr rfl),
          C7_body_classification.2.2 rOk uScenario rfl rfl⟩
  exact (C7_body_classification.1 rApi eApi [] rfl).2 (by decide)

/-- Claim C8: HTTP and transport outcomes are classified distinctly —
status 401 maps to the unauthorized outcome, 403 to forbidden, every other
non-2xx status to a generic HTTP outcome carrying the status and detail,
and a transport failure to the network outcome with its detail.  The model
consumes the outcome of exactly one request: `handle_submit` performs a
single attempt and no retry. -/
theorem C8_http_classification :
    (∀ d : String,
       classifyResult (HttpResult.transportError d) = SubmitOutcome.networkError d) ∧
    (∀ (d : String) (b : Option GqlResponse),
       classifyResult (HttpResult.response 401 d b) = SubmitOutcome.unauthorized) ∧
    (∀ (d : String) (b : Option GqlResponse),
       classifyResult (HttpResult.response 403 d b) = SubmitOutcome.forbidden) ∧
    (∀ (st : Nat) (d : String) (b : Option GqlResponse),
       ¬(200 ≤ st ∧ st ≤ 299) → st ≠ 401 → st ≠ 403 →
       classifyResult (HttpResult.response st d b) = SubmitOutcome.httpError st d) := by
  refine ⟨fun d => rfl, fun d b => by simp [classifyResult],
          fun d b => by simp [classifyResult], ?_⟩
  intro st d b h1 h2 h3
  simp [classifyResult, h1, h2, h3]

/-- Witness for C8: one concrete outcome per branch. -/
theorem C8_witness :
    classifyResult (HttpResult.transportError "connection refused")
      = SubmitOutcome.networkError "connection refused" ∧
    classifyResult (HttpResult.response 401 "Unauthorized" none)
      = SubmitOutcome.unauthorized ∧
    classifyResult (HttpResult.response 403 "Forbidden" none)
      = SubmitOutcome.forbidden ∧
    classifyResult (HttpResult.response 500 "Server Error" none)
      = SubmitOutcome.httpError 500 "Server Error" :=
  ⟨C8_http_classification.1 "connection refused",
   C8_http_classification.2.1 "Unauthorized" none,
   C8_http_classification.2.2.1 "Forbidden" none,
   C8_http_classification.2.2.2 500 "Server Error" none (by decide) (by decide) (by decide)⟩

/-- The year filter ignores the numeric fields a post may be missing. -/
theorem keep2024_normalize (p : Post) :
    keep2024 (normalizePost p) = keep2024 p := rfl

/-- Defaulting absent numeric fields commutes with the comprehension of
lines 61-65. -/
theorem filterPostsE_map_normalize (ps : List Post) :
    filterPostsE (ps.map normalizePost)
      = Except.map (List.map normalizePost) (filterPostsE ps) := by
  induction ps with
  | nil => rfl
  | cons p ps ih =>
      simp only [List.map_cons, filterPostsE, keep2024_normalize, ih]
      cases hk : keep2024 p with
      | error e => rfl
      | ok b =>
          cases hf : filterPostsE ps with
          | error e => rfl
          | ok rest => cases b <;> simp [Except.map]

/-- The view sum reads each post through the same `getD 0` default the
normalized record stores explicitly. -/
theorem totalViewsOf_map_normalize (l : List Post) :
    totalViewsOf (l.map normalizePost) = totalViewsOf l := by
  unfold totalViewsOf
  rw [List.map_map]
  rfl

/-- The reaction sum reads each post through the same `getD 0` default the
normalized record stores explicitly. -/
theorem totalReactionsOf_map_normalize (l : List Post) :
    totalReactionsOf (l.map normalizePost) = totalReactionsOf l := by
  unfold totalReactionsOf
  rw [List.map_map]
  rfl

/-- The badge count of line 73 is unchanged by making the absent badge
list an explicit empty list. -/
theorem badgesCountOf_normalize (u : UserData) :
    badgesCountOf (normalizeUser u) = badgesCountOf u := by
  cases hb : u.badges with
  | none => simp [badgesCountOf, normalizeUser, hb]
  | some l => cases l <;> simp [badgesCountOf, normalizeUser, hb]

/-- The six metrics are unchanged by defaulting absent fields. -/
theorem statsItemsOf_normalize (u : UserData) (ps : List Post) :
    statsItemsOf (normalizeUser u) (ps.map normalizePost) = statsItemsOf u ps := by
  unfold statsItemsOf
  rw [totalViewsOf_map_normalize, totalReactionsOf_map_normalize,
      badgesCountOf_normalize, List.length_map]
  rfl

/-- Claim C10: a retained post with no views or reactionCount key counts
as zero in the sums, an absent followersCount counts as zero, and an
absent or empty badge list gives a badge count of zero — aggregation of
any record equals aggregation of the record with those defaults made
explicit, and a record with all of them absent still aggregates
successfully (here to Total Articles 1 and Avg. Reactions 0.0) instead of
raising or degrading. -/
theorem C10_missing_fields_zero (s : AppState) (u : UserData) :
    ((process_stats s u).stats_items = (process_stats s (normalizeUser u)).stats_items ∧
     (process_stats s u).post_count = (process_stats s (normalizeUser u)).post_count) ∧
    (process_stats initState uAllMissing).stats_items.map DisplayItem.value
      = ["1", "0", "0", "0", "0", "0.0"] := by
  constructor
  · have hall : allPostsOf (normalizeUser u) = (allPostsOf u).map normalizePost := rfl
    unfold process_stats processStatsBody
    rw [hall, filterPostsE_map_normalize]
    cases h : filterPostsE (allPostsOf u) with
    | error e => simp [Except.map]
    | ok ps => simp [Except.map, statsItemsOf_normalize, List.length_map]
  · decide

end HW
